import Mathlib

/- Shallow embedding of pyvisainstrument's core:
   the VisaResource protocol engine (src/pyvisainstrument/VisaResource.py),
   the KeysightDAQ completion poll (src/pyvisainstrument/KeysightDAQ.py),
   and the DummyDAQ command-tree dispatcher
   (src/pyvisainstrument/testsuite/DummyDAQ.py). -/

namespace PyVisa

/-- Exceptions the embedded Python code can raise. -/
inductive PyErr where
  | typeError
  | keyError
  | valueError
  | unknownCommand
deriving DecidableEq, Repr

/-- Python str.strip on a character list: drop leading and trailing
whitespace. -/
def pyStrip (cs : List Char) : List Char :=
  ((cs.dropWhile Char.isWhitespace).reverse.dropWhile Char.isWhitespace).reverse

/-- Value of a nonempty ASCII digit string. -/
def digitsToNat (cs : List Char) : Nat :=
  cs.foldl (fun acc c => acc * 10 + (c.toNat - '0'.toNat)) 0

/-- Parse a nonempty all-digit character list, else none. -/
def pyParseNat (cs : List Char) : Option Nat :=
  if cs ≠ [] ∧ cs.all Char.isDigit then some (digitsToNat cs) else none

/-- Model of Python int(s) on a character list: strip surrounding
whitespace, accept an optional sign followed by a nonempty digit string;
raise ValueError otherwise. -/
def pyIntChars (cs : List Char) : Except PyErr Int :=
  let t := pyStrip cs
  match pyParseNat t with
  | some n => .ok (n : Int)
  | none =>
    match t with
    | '-' :: rest =>
      match pyParseNat rest with
      | some n => .ok (-(n : Int))
      | none => .error .valueError
    | '+' :: rest =>
      match pyParseNat rest with
      | some n => .ok (n : Int)
      | none => .error .valueError
    | _ => .error .valueError

/-- Model of Python int(s) on a string. -/
def pyInt (s : String) : Except PyErr Int := pyIntChars s.data

/-- Python str.lower for ASCII strings. -/
def pyLower (s : String) : String := String.mk (s.data.map Char.toLower)

/-- Python s.split(","): split a character list on commas; the empty list
yields one empty field. -/
def splitOnComma : List Char → List (List Char)
  | [] => [[]]
  | c :: rest =>
    if c = ',' then [] :: splitOnComma rest
    else
      match splitOnComma rest with
      | [] => [[c]]
      | g :: gs => (c :: g) :: gs

/-- Python ','.join(tokens). -/
def joinComma (toks : List String) : String :=
  String.mk (List.intercalate [','] (toks.map String.data))

namespace DummyDAQ

/-- Handler functions stored in the DummyDAQ state tree. -/
inductive Handler where
  | clear_status
  | reset
deriving DecidableEq, Repr

/-- Handler bodies: DummyDAQ.clear_status and DummyDAQ.reset both ignore
their arguments and return None. -/
def runHandler (_h : Handler) (_params : List String) (_is_query : Bool) :
    Option String := none

/-- A Python value as stored in the DummyDAQ state tree: a string leaf, a
route list, a nested dict, or a handler function. -/
inductive PyVal where
  | str (s : String)
  | list (xs : List Int)
  | dict (entries : List (String × PyVal))
  | func (h : Handler)

/-- Mutable part of a DummyDAQ instance: the constructor parameters
num_slots / num_channels and the two route lists state["ROUTE"]["OPEN"] and
state["ROUTE"]["CLOSE"] (everything else in the state tree is constant). -/
structure DAQ where
  num_slots : Nat
  num_channels : Nat
  openList : List Int
  closeList : List Int
deriving DecidableEq, Repr

/-- Helper for pyDecLen, structurally recursive on a fuel argument that is
always at least the digit count. -/
def pyDecLenAux : Nat → Nat → Nat
  | 0, _ => 1
  | fuel + 1, n => if n < 10 then 1 else pyDecLenAux fuel (n / 10) + 1

/-- Decimal digit count of a natural number, i.e. the length of Python
str(n) for n >= 0. -/
def pyDecLen (n : Nat) : Nat := pyDecLenAux n n

/-- Model of int(f'{s:01d}{c:02d}') from DummyDAQ.__init__: the decimal
digits of s concatenated with the decimal digits of c zero-padded to width
at least 2, read back as an integer. -/
def pyFormatRoute (s c : Nat) : Int :=
  ((s * 10 ^ (max 2 (pyDecLen c)) + c : Nat) : Int)

/-- Initial OPEN route list built in DummyDAQ.__init__. -/
def init_open (num_slots num_channels : Nat) : List Int :=
  (List.range' 1 num_slots).flatMap fun s =>
    (List.range' 1 num_channels).map fun c => pyFormatRoute s c

/-- A freshly constructed DummyDAQ: every route open, none closed. -/
def initDAQ (num_slots num_channels : Nat) : DAQ :=
  { num_slots := num_slots, num_channels := num_channels,
    openList := init_open num_slots num_channels, closeList := [] }

/-- Snapshot of self.state as a value tree. -/
def stateTree (d : DAQ) : PyVal :=
  .dict [
    ("*CLS", .func .clear_status),
    ("*RST", .func .reset),
    ("*IDN", .str "34970A"),
    ("*OPC", .str "1"),
    ("*ESR", .str "1"),
    ("ROUTE", .dict [
      ("OPEN", .list d.openList),
      ("CLOSE", .list d.closeList),
      ("DONE", .str "1")]),
    ("MEASURE", .dict [
      ("TEMPERATURE", .str "+2.12340000E+01"),
      ("RHUMIDITY", .str "+5.00000000E+01")])]

/-- The static abbreviation table self.map_commands. -/
def map_commands_table : List (String × String) :=
  [("MEAS", "MEASURE"), ("MEASURE", "MEASURE"),
   ("TEMP", "TEMPERATURE"), ("TEMPERATURE", "TEMPERATURE"),
   ("RH", "RHUMIDITY"), ("RHUMIDITY", "RHUMIDITY"),
   ("ROUT", "ROUTE"), ("ROUTE", "ROUTE"),
   ("OPEN", "OPEN"),
   ("CLOS", "CLOSE"), ("CLOSE", "CLOSE")]

/-- self.map_commands.get(cmd, cmd): resolve an abbreviation, passing
unknown segments through unchanged. -/
def map_commands (cmd : String) : String :=
  (map_commands_table.lookup cmd).getD cmd

/-- DummyDAQ.is_valid_route: stringify the route, require exactly 3
characters, read the first as the slot and the last two as the channel,
and range-check both.  int() of a non-digit slice (e.g. the "-" of a
negative route) raises ValueError. -/
def is_valid_route (num_slots num_channels : Nat) (route : Int) :
    Except PyErr Bool :=
  let route_str := (toString route).data
  if route_str.length ≠ 3 then .ok false
  else
    match pyIntChars (route_str.take 1) with
    | .error e => .error e
    | .ok p =>
      match pyIntChars ((route_str.drop 1).take 2) with
      | .error e => .error e
      | .ok c =>
        .ok (decide (0 < p) && decide (p ≤ (num_slots : Int)) &&
             decide (0 < c) && decide (c ≤ (num_channels : Int)))

/-- DummyDAQ.set_channel: drop invalid routes silently; otherwise move the
route from the complementary list to the target list (append to the
destination, then delete the first occurrence from the source); a route not
present in the source list leaves the state unchanged. -/
def set_channel (d : DAQ) (route : Int) (closed : Bool) : Except PyErr DAQ :=
  match is_valid_route d.num_slots d.num_channels route with
  | .error e => .error e
  | .ok valid =>
    if !valid then .ok d
    else if closed then
      if route ∈ d.openList then
        .ok { d with closeList := d.closeList ++ [route],
                     openList := d.openList.erase route }
      else .ok d
    else
      if route ∈ d.closeList then
        .ok { d with openList := d.openList ++ [route],
                     closeList := d.closeList.erase route }
      else .ok d

/-- Python substring test needle in hay for strings. -/
def strContains (hay needle : String) : Bool :=
  (List.range (hay.data.length + 1)).any fun i =>
    needle.data.isPrefixOf (hay.data.drop i)

/-- Python `key in v` for the node kinds in the DummyDAQ tree: dict key
membership; membership in a list of ints (a str never equals an int, hence
always False); substring test on a str; `in` applied to a function raises
TypeError (not iterable). -/
def pyContains (v : PyVal) (key : String) : Except PyErr Bool :=
  match v with
  | .dict es => .ok (es.lookup key).isSome
  | .list _ => .ok false
  | .str s => .ok (strContains s key)
  | .func _ => .error .typeError

/-- Python `v[key]` for a string key: dict indexing; subscripting a str,
list or function with a str key raises TypeError. -/
def pySubscript (v : PyVal) (key : String) : Except PyErr PyVal :=
  match v with
  | .dict es =>
    match es.lookup key with
    | some x => .ok x
    | none => .error .keyError
  | _ => .error .typeError

/-- The descent loop of DummyDAQ.process_command: map each raw segment
through map_commands, descend while the mapped segment is contained in the
current node, and stop (break) at the first segment that is not; pcmd
tracks the last mapped segment that was descended through. -/
def walk (v : PyVal) (pcmd : Option String) :
    List String → Except PyErr (PyVal × Option String)
  | [] => .ok (v, pcmd)
  | cmd :: rest =>
    let mapped_cmd := map_commands cmd
    match pyContains v mapped_cmd with
    | .error e => .error e
    | .ok true =>
      match pySubscript v mapped_cmd with
      | .error e => .error e
      | .ok v2 => walk v2 (some mapped_cmd) rest
    | .ok false => .ok (v, pcmd)

/-- re.sub(r"[@\x28\x29]", "", s).strip(): remove every '@', opening and
closing parenthesis character, then strip whitespace. -/
def stripDecor (s : String) : List Char :=
  pyStrip (s.data.filter fun ch => !(ch == '@' || ch == '(' || ch == ')'))

/-- Python equality between a str and an int is always False (no implicit
coercion): this is the elementwise comparison `r in rst` performs in the
multi-route query branch, where r is a string and rst a list of ints. -/
def pyStrEqInt (_r : List Char) (_n : Int) : Bool := false

/-- The write-branch loop `for route in route_names:
self.set_channel(int(route), closed)`.  An exception part-way through the
loop leaves the partially updated state in place. -/
def applyRoutes (d : DAQ) (closed : Bool) :
    List (List Char) → Except PyErr Unit × DAQ
  | [] => (.ok (), d)
  | r :: rest =>
    match pyIntChars r with
    | .error e => (.error e, d)
    | .ok n =>
      match set_channel d n closed with
      | .error e => (.error e, d)
      | .ok d2 => applyRoutes d2 closed rest

/-- Query classification of DummyDAQ.process_command: a route list with
parameters answers membership ("1"/"0", comma-joined when several targets
were requested — note the multi-target branch compares the raw route
strings against the int list); a str leaf is returned as-is; a handler is
invoked; everything else answers the sentinel "-100". -/
def processQuery (rst : PyVal) (params : List String) :
    Except PyErr (Option String) :=
  match rst with
  | .list xs =>
    if params.length ≠ 0 then
      let route_str := stripDecor (params.headD "")
      let route_names := splitOnComma route_str
      if route_names.length = 1 then
        match pyIntChars (route_names.headD []) with
        | .error e => .error e
        | .ok r => .ok (some (if r ∈ xs then "1" else "0"))
      else
        .ok (some (joinComma
          (route_names.map fun r => if xs.any (pyStrEqInt r) then "1" else "0")))
    else .ok (some "-100")
  | .str s => .ok (some s)
  | .func h => .ok (runHandler h params true)
  | .dict _ => .ok (some "-100")

/-- Write classification of DummyDAQ.process_command: a route list with
parameters moves each named route (closed iff the matched segment was
"CLOSE"); a handler is invoked; everything else raises
Exception('Unknown command'). -/
def processWrite (d : DAQ) (rst : PyVal) (pcmd : Option String)
    (params : List String) : Except PyErr (Option String) × DAQ :=
  match rst with
  | .list _ =>
    if params.length ≠ 0 then
      match applyRoutes d (pcmd == some "CLOSE")
          (splitOnComma (stripDecor (params.headD ""))) with
      | (.error e, d2) => (.error e, d2)
      | (.ok _, d2) => (.ok none, d2)
    else (.error .unknownCommand, d)
  | .func h => (.ok (runHandler h params false), d)
  | _ => (.error .unknownCommand, d)

/-- DummyDAQ.process_command: walk the state tree along the mapped command
path, then classify the reached node for a query or a write.  Queries never
mutate the state; only the route-list write branch does. -/
def process_command (d : DAQ) (cmd_tree params : List String)
    (is_query : Bool) : Except PyErr (Option String) × DAQ :=
  match walk (stateTree d) none cmd_tree with
  | .error e => (.error e, d)
  | .ok (rst, pcmd) =>
    if is_query then (processQuery rst params, d)
    else processWrite d rst pcmd params

/-- Dispatcher state invariant of claim C10: the OPEN and CLOSE lists hold
no duplicates, are disjoint, and together hold exactly the routes of the
initial full route list. -/
def routeInv (initL : List Int) (d : DAQ) : Prop :=
  d.openList.Nodup ∧ d.closeList.Nodup ∧
  (∀ r, ¬(r ∈ d.openList ∧ r ∈ d.closeList)) ∧
  (∀ r, r ∈ d.openList ∨ r ∈ d.closeList ↔ r ∈ initL)

end DummyDAQ

namespace VisaResource

/-- Errors raised by VisaResource.query: the "not open" check before the
loop, the generic initialisation of err (raised only when no attempt ran),
or the exception saved from the last failed attempt. -/
inductive QErr (ε : Type) where
  | notOpen
  | genericInit
  | fromAttempt (e : ε)
deriving DecidableEq

/-- The retry loop body of VisaResource.query: run attempts while some
remain, sending once per iteration; a success returns immediately, a
failure overwrites err and continues; when the attempts are exhausted the
saved err is raised.  Returns the outcome together with the number of
sends performed. -/
def queryGo {α ε : Type} (attempt : Nat → Except ε α) :
    Nat → Nat → QErr ε → Except (QErr ε) α × Nat
  | sent, 0, err => (.error err, sent)
  | sent, rem + 1, _err =>
    match attempt sent with
    | .ok v => (.ok v, sent + 1)
    | .error e => queryGo attempt (sent + 1) rem (.fromAttempt e)

/-- VisaResource.query: raise if the resource is not open, otherwise run
the bounded retry loop.  The i-th attempt (one send plus decode) is
abstracted as `attempt i`; its exception covers both transport and decode
failures. -/
def query {α ε : Type} (is_open : Bool) (attempt : Nat → Except ε α)
    (max_attempts : Nat) : Except (QErr ε) α × Nat :=
  if !is_open then (.error .notOpen, 0)
  else queryGo attempt 0 max_attempts .genericInit

/-- Bool decoding in VisaResource.query for container=bool:
rst.lower() not in ['0', 'false', 'no'] — note: no whitespace trimming. -/
def decodeBool (rst : String) : Bool :=
  !(["0", "false", "no"].contains (pyLower rst))

/-- Errors of the async-completion machinery: the generic initialisation
of err, a device-reported error (raw *ESR? value), the completion timeout,
and the model-only marker for a poll loop that has not yet exited within
the given fuel. -/
inductive AErr where
  | generic
  | device (esr : Nat)
  | ctimeout
  | spin
deriving DecidableEq, Repr

/-- The inner *ESR? poll loop of one VisaResource.write_async attempt.
g is the global poll counter (index into the device's ESR reply sequence),
k the number of completed sleeps in this attempt; elapsed time is modelled
as (k+1)*delay after the k-th sleep.  Error bits 0x3C fail the attempt at
once with the raw register value; bit 0x01 completes it; otherwise sleep
and, when a timeout is configured and exceeded, raise the completion
timeout.  Returns the outcome and the next global poll index. -/
def opcPoll (esr : Nat → Nat) (delay : ℚ) (timeout : Option ℚ) :
    Nat → Nat → Nat → Except AErr Unit × Nat
  | g, _k, 0 => (.error .spin, g)
  | g, k, fuel + 1 =>
    let e := esr g
    if e &&& 0x3C ≠ 0 then (.error (.device e), g + 1)
    else if e &&& 0x01 ≠ 0 then (.ok (), g + 1)
    else
      match timeout with
      | some t =>
        if ((k : ℚ) + 1) * delay > t then (.error .ctimeout, g + 1)
        else opcPoll esr delay timeout (g + 1) (k + 1) fuel
      | none => opcPoll esr delay timeout (g + 1) (k + 1) fuel

/-- The outer `for attempts in range(max_attempts)` loop of
VisaResource.write_async: each attempt clears status, issues the command
and *OPC, then polls; any exception is saved into err and the next attempt
starts; after the last attempt err is re-raised. -/
def writeAsyncGo (esr : Nat → Nat) (delay : ℚ) (timeout : Option ℚ)
    (fuel : Nat) : Nat → Nat → AErr → Except AErr Unit × Nat
  | 0, g, err => (.error err, g)
  | rem + 1, g, _err =>
    match opcPoll esr delay timeout g 0 fuel with
    | (.ok _, g2) => (.ok (), g2)
    | (.error e, g2) => writeAsyncGo esr delay timeout fuel rem g2 e

/-- VisaResource.write_async (defaults delay=0.1, max_attempts=1,
timeout=300), returning the outcome and the total number of *ESR? polls
performed. -/
def write_async (esr : Nat → Nat) (delay : ℚ) (timeout : Option ℚ)
    (max_attempts : Nat) (fuel : Nat) : Except AErr Unit × Nat :=
  writeAsyncGo esr delay timeout fuel max_attempts 0 .generic

/-- VisaResource.sync_commands_nonblocking: write *OPC then poll *ESR?
until the completion bit is set, raising on error bits — with no timeout
or attempt bound of any kind.  Returns the outcome (spin marks fuel
exhaustion, i.e. the loop still running) and the next poll index. -/
def sync_commands_nonblocking (esr : Nat → Nat) :
    Nat → Nat → Except AErr Unit × Nat
  | g, 0 => (.error .spin, g)
  | g, fuel + 1 =>
    let e := esr g
    if e &&& 0x3C ≠ 0 then (.error (.device e), g + 1)
    else if e &&& 0x01 ≠ 0 then (.ok (), g + 1)
    else sync_commands_nonblocking esr (g + 1) fuel

/-- The loop of sync_commands_nonblocking exits (on completion or on a
device error) after some finite number of polls. -/
def syncTerminates (esr : Nat → Nat) : Prop :=
  ∃ fuel, (sync_commands_nonblocking esr 0 fuel).1 ≠ .error .spin

end VisaResource

namespace KeysightDAQ

/-- Outcomes of KeysightDAQ.wait_for_completion: the timeout exception, or
the model-only marker for a loop that has not yet exited within the given
fuel. -/
inductive WErr where
  | wtimeout
  | spin
deriving DecidableEq, Repr

/-- Python str.isnumeric for ASCII digit strings. -/
def pyIsNumeric (cs : List Char) : Bool :=
  cs.length != 0 && cs.all Char.isDigit

/-- KeysightDAQ.wait_for_completion: poll ROUT:DONE? every 15 ms; a
numeric reply replaces done, a non-numeric reply leaves it; after every
poll wait_time grows by 15 ms and reaching timeout raises — the done flag
only exits the loop at the next loop-head check.  k counts completed loop
iterations (wait_time = (k+1)*15/1000 after iteration k), done carries the
flag across iterations (initially 0 = False); the reply to the j-th poll
is doneSeq j. -/
def wait_for_completion (doneSeq : Nat → String) (timeout : ℚ) :
    Nat → Nat → Nat → Except WErr Unit × Nat
  | k, _done, 0 => (.error .spin, k)
  | k, done, fuel + 1 =>
    if done ≠ 0 then (.ok (), k)
    else
      let ds := pyStrip (doneSeq k).data
      let done2 := if pyIsNumeric ds then digitsToNat ds else done
      if ((k : ℚ) + 1) * (15 / 1000) ≥ timeout then (.error .wtimeout, k + 1)
      else wait_for_completion doneSeq timeout (k + 1) done2 fuel

end KeysightDAQ

namespace KeysightDAQ

theorem wfc_spin_bound (doneSeq : Nat → String) (t : ℚ) :
    ∀ (fuel k done : Nat), 1 ≤ fuel →
      (wait_for_completion doneSeq t k done fuel).1 = .error .spin →
      ((k : ℚ) + fuel) * (15 / 1000) < t := by
  intro fuel
  induction fuel with
  | zero => intro k done h; omega
  | succ f ih =>
    intro k done _ hspin
    by_cases hdone : done ≠ 0
    · simp [wait_for_completion, hdone] at hspin
    · by_cases ht : ((k : ℚ) + 1) * (15 / 1000) ≥ t
      · simp [wait_for_completion, hdone, ht] at hspin
      · simp only [wait_for_completion, hdone, ht, reduceIte, ne_eq,
          not_false_eq_true] at hspin
        push_neg at ht
        rcases Nat.eq_zero_or_pos f with hf | hf
        · subst hf
          push_cast
          linarith
        · have := ih (k + 1) _ hf hspin
          push_cast at this ⊢
          linarith

end KeysightDAQ

namespace VisaResource

theorem queryGo_all_fail {α ε : Type} (attempt : Nat → Except ε α)
    (errs : Nat → ε) :
    ∀ (rem sent : Nat) (err : QErr ε),
      (∀ i, i < rem + 1 → attempt (sent + i) = .error (errs (sent + i))) →
      queryGo attempt sent (rem + 1) err =
        (.error (.fromAttempt (errs (sent + rem))), sent + rem + 1) := by
  intro rem
  induction rem with
  | zero =>
    intro sent err h
    have h0 := h 0 (by omega)
    simp only [Nat.add_zero] at h0 ⊢
    simp [queryGo, h0]
  | succ r ih =>
    intro sent err h
    have h0 := h 0 (by omega)
    simp only [Nat.add_zero] at h0
    have hrec := ih (sent + 1) (.fromAttempt (errs sent)) (fun i hi => by
      have := h (i + 1) (by omega)
      simpa [Nat.add_assoc, Nat.add_comm 1 i] using this)
    have hstep : queryGo attempt sent (r + 1 + 1) err =
        queryGo attempt (sent + 1) (r + 1) (.fromAttempt (errs sent)) := by
      conv_lhs => rw [queryGo.eq_def]
      simp [h0]
    rw [hstep, hrec]
    have heq : sent + 1 + r = sent + (r + 1) := by omega
    rw [heq]

theorem queryGo_sends_le {α ε : Type} (attempt : Nat → Except ε α) :
    ∀ (rem sent : Nat) (err : QErr ε),
      (queryGo attempt sent rem err).2 ≤ sent + rem := by
  intro rem
  induction rem with
  | zero => intro sent err; simp [queryGo]
  | succ r ih =>
    intro sent err
    simp only [queryGo]
    cases attempt sent with
    | ok v =>
      show sent + 1 ≤ sent + (r + 1)
      omega
    | error e =>
      have := ih (sent + 1) (.fromAttempt e)
      show (queryGo attempt (sent + 1) r (.fromAttempt e)).2 ≤ sent + (r + 1)
      omega

/-- C1: for every command and every N >= 1, if every attempt of
query(cmd, maxAttempts=N) fails with a transport or decode error, then
query performs exactly N send attempts and re-raises the exception of the
last failed attempt itself (not the generic initial error, not a
wrapper). -/
theorem C1_query_retry_exhaust {α ε : Type} (attempt : Nat → Except ε α)
    (errs : Nat → ε) (N : Nat) (hN : 1 ≤ N)
    (hfail : ∀ i, i < N → attempt i = .error (errs i)) :
    query true attempt N = (.error (.fromAttempt (errs (N - 1))), N) := by
  obtain ⟨r, rfl⟩ : ∃ r, N = r + 1 := ⟨N - 1, by omega⟩
  have := queryGo_all_fail attempt errs r 0 .genericInit (by simpa using hfail)
  simpa [query] using this

/-- Witness for C1 at a concrete always-failing attempt sequence. -/
theorem C1_query_retry_exhaust_witness :
    query true (fun i => (Except.error i : Except Nat Nat)) 3 =
      (.error (.fromAttempt 2), 3) :=
  C1_query_retry_exhaust (fun i => .error i) (fun i => i) 3 (by decide)
    (fun _ _ => rfl)

/-- C9 counterexample: the claim requires the decoded bool to be false
whenever the trimmed, lower-cased reply is "0"; but the code lower-cases
without trimming, so the reply " 0 " decodes to true although its trimmed
lower-case form "0" is in the false-set. -/
theorem C9_trim_counterexample :
    decodeBool " 0 " = true ∧
      pyLower (String.mk (pyStrip " 0 ".data)) ∈
        (["0", "false", "no"] : List String) := by
  constructor
  · rfl
  · decide

/-- C9 (amended): a reply line decoded with bool target type decodes to
false iff the lower-cased (untrimmed) reply text is exactly one of "0",
"false", "no"; on a first-attempt success the query returns exactly that
decoded value after one send. -/
theorem C9_bool_decode {ε : Type} (transport : Nat → Except ε String)
    (s : String) (N : Nat) (hN : 1 ≤ N) (h0 : transport 0 = .ok s) :
    query true (fun i => (transport i).map decodeBool) N =
      (.ok (decodeBool s), 1) ∧
    (decodeBool s = false ↔ pyLower s ∈ (["0", "false", "no"] : List String)) := by
  obtain ⟨r, rfl⟩ : ∃ r, N = r + 1 := ⟨N - 1, by omega⟩
  constructor
  · simp [query, queryGo, h0, Except.map]
  · simp only [decodeBool, List.contains, List.elem_eq_mem, Bool.not_eq_false,
      decide_eq_true_eq, Bool.not_eq_true, decide_eq_false_iff_not, List.mem_cons,
      List.not_mem_nil, or_false]
    constructor
    · intro h
      by_contra hc
      push_neg at hc
      simp [List.elem_eq_mem, hc.1, hc.2.1, hc.2.2] at h
    · intro h
      rcases h with h | h | h <;> simp [List.elem_eq_mem, h]

/-- Witness for C9 at the concrete reply "0". -/
theorem C9_bool_decode_witness :
    query true (fun i => ((fun _ : Nat => (Except.ok "0" : Except Unit String)) i).map decodeBool) 3 =
      (.ok (decodeBool "0"), 1) ∧
    (decodeBool "0" = false ↔ pyLower "0" ∈ (["0", "false", "no"] : List String)) :=
  C9_bool_decode (fun _ => .ok "0") "0" 3 (by decide) rfl

/-- C3 counterexample: a device-reported error IS retried by write_async's
outer attempt loop when max_attempts is 2: with every *ESR? poll reading
0x24 (an error-mask bit), the first poll reports the device error, yet a
second poll is performed because the whole operation is re-attempted; so
"a device-reported error is never retried" is false as stated. -/
theorem C3_device_error_retried_counterexample :
    (fun _ : Nat => 0x24) 0 &&& 0x3C ≠ 0 ∧
    write_async (fun _ => 0x24) 1 (some 300) 2 5 =
      (.error (.device 0x24), 2) := by
  exact ⟨by decide, rfl⟩

/-- C3 (amended): within a single attempt, a poll whose event-status value
has an error-mask bit set fails that attempt immediately with a device
error carrying the raw register value — exactly one poll is consumed, for
every delay and timeout setting (so no waiting for the timeout occurs);
and with the default max_attempts = 1 the operation is not re-attempted:
write_async raises that same device error after that single poll.  (With
max_attempts >= 2 the outer loop does re-attempt, see the
counterexample.) -/
theorem C3_device_error_short_circuit :
    (∀ (esr : Nat → Nat) (delay : ℚ) (timeout : Option ℚ) (g k fuel : Nat),
        1 ≤ fuel → esr g &&& 0x3C ≠ 0 →
        opcPoll esr delay timeout g k fuel =
          (.error (.device (esr g)), g + 1)) ∧
    (∀ (esr : Nat → Nat) (delay : ℚ) (timeout : Option ℚ) (fuel : Nat),
        1 ≤ fuel → esr 0 &&& 0x3C ≠ 0 →
        write_async esr delay timeout 1 fuel =
          (.error (.device (esr 0)), 1)) := by
  have inner : ∀ (esr : Nat → Nat) (delay : ℚ) (timeout : Option ℚ)
      (g k fuel : Nat), 1 ≤ fuel → esr g &&& 0x3C ≠ 0 →
      opcPoll esr delay timeout g k fuel =
        (.error (.device (esr g)), g + 1) := by
    intro esr delay timeout g k fuel hf he
    obtain ⟨f, rfl⟩ : ∃ f, fuel = f + 1 := ⟨fuel - 1, by omega⟩
    simp [opcPoll, he]
  refine ⟨inner, ?_⟩
  intro esr delay timeout fuel hf he
  unfold write_async writeAsyncGo
  rw [inner esr delay timeout 0 0 fuel hf he]
  rfl

/-- Witness for C3 at a concrete error-reporting ESR sequence. -/
theorem C3_device_error_short_circuit_witness :
    opcPoll (fun _ => 0x24) 1 (some 300) 0 0 3 =
      (.error (.device 0x24), 1) ∧
    write_async (fun _ => 0x24) 1 (some 300) 1 3 =
      (.error (.device 0x24), 1) :=
  ⟨C3_device_error_short_circuit.1 (fun _ => 0x24) 1 (some 300) 0 0 3
      (by decide) (by decide),
   C3_device_error_short_circuit.2 (fun _ => 0x24) 1 (some 300) 3
      (by decide) (by decide)⟩

theorem sync_const_zero : ∀ (fuel g : Nat),
    sync_commands_nonblocking (fun _ => 0) g fuel = (.error .spin, g + fuel) := by
  intro fuel
  induction fuel with
  | zero => intro g; rfl
  | succ f ih =>
    intro g
    simp only [sync_commands_nonblocking]
    norm_num
    rw [ih (g + 1)]
    have heq : g + 1 + f = g + (f + 1) := by omega
    rw [heq]

/-- C4 counterexample: sync_commands_nonblocking is a completion-polling
operation of the core with no timeout or attempt bound: against a device
whose event-status register never reports completion (always 0) it never
exits its polling loop — for every amount of fuel the loop is still
spinning — contradicting "no core operation can wait forever". -/
theorem C4_sync_nonblocking_unbounded_counterexample :
    ¬ syncTerminates (fun _ => 0) := by
  rintro ⟨fuel, h⟩
  exact h (by rw [sync_const_zero fuel 0])

theorem opcPoll_spin_bound (esr : Nat → Nat) (delay t : ℚ) :
    ∀ (fuel k g : Nat), 1 ≤ fuel →
      (opcPoll esr delay (some t) g k fuel).1 = .error .spin →
      ((k : ℚ) + fuel) * delay ≤ t := by
  intro fuel
  induction fuel with
  | zero => intro k g h; omega
  | succ f ih =>
    intro k g _ hspin
    simp only [opcPoll] at hspin
    split at hspin
    next hbits => simp at hspin
    next hbits =>
      split at hspin
      next hcomp => simp at hspin
      next hcomp =>
        split at hspin
        next htime => simp at hspin
        next htime =>
          push_neg at htime
          rcases Nat.eq_zero_or_pos f with hf | hf
          · subst hf
            push_cast
            linarith
          · have := ih (k + 1) (g + 1) hf hspin
            push_cast at this ⊢
            linarith

theorem writeAsyncGo_no_spin (esr : Nat → Nat) (delay : ℚ)
    (tio : Option ℚ) (F : Nat)
    (hF : ∀ g, (opcPoll esr delay tio g 0 F).1 ≠ .error .spin) :
    ∀ (rem g : Nat) (err : AErr), err ≠ .spin →
      (writeAsyncGo esr delay tio F rem g err).1 ≠ .error .spin := by
  intro rem
  induction rem with
  | zero =>
    intro g err herr
    simp only [writeAsyncGo]
    intro hcon
    exact herr (by injection hcon)
  | succ r ih =>
    intro g err _herr
    simp only [writeAsyncGo]
    rcases hp : opcPoll esr delay tio g 0 F with ⟨res, g2⟩
    cases res with
    | ok v => simp
    | error e =>
      have he : e ≠ .spin := by
        intro hcon
        exact hF g (by rw [hp, hcon])
      simpa using ih g2 e he

theorem exists_fuel_mul_gt (t δ : ℚ) (hδ : 0 < δ) :
    ∃ F : Nat, 1 ≤ F ∧ t < (F : ℚ) * δ := by
  obtain ⟨n, hn⟩ := exists_nat_gt (t / δ)
  refine ⟨n + 1, by omega, ?_⟩
  have h1 : t / δ < ((n + 1 : Nat) : ℚ) := by push_cast; linarith
  calc t = t / δ * δ := by field_simp
    _ < ((n + 1 : Nat) : ℚ) * δ := by
        exact mul_lt_mul_of_pos_right h1 hδ

/-- C4 (amended): the three blocking waits the spec names are bounded: the
query retry loop never performs more sends than max_attempts; the
write_async completion poll, once given a positive poll interval and a
non-None timeout, exits its polling loop (completing, or raising the
device error or the completion timeout) within a finite number of polls,
for any number of attempts; and wait_for_completion always exits within a
finite number of 15 ms polls for every reply sequence and timeout.
(sync_commands_nonblocking, by contrast, is unbounded — see the
counterexample.) -/
theorem C4_bounded_waits :
    (∀ (α ε : Type) (is_open : Bool) (attempt : Nat → Except ε α) (N : Nat),
        (query is_open attempt N).2 ≤ N) ∧
    (∀ (esr : Nat → Nat) (delay t : ℚ) (maxA : Nat), 0 < delay →
        ∃ fuel, (write_async esr delay (some t) maxA fuel).1 ≠ .error .spin) ∧
    (∀ (doneSeq : Nat → String) (t : ℚ),
        ∃ fuel,
          (KeysightDAQ.wait_for_completion doneSeq t 0 0 fuel).1 ≠
            .error .spin) := by
  refine ⟨?_, ?_, ?_⟩
  · intro α ε is_open attempt N
    unfold query
    cases is_open with
    | false => simp
    | true => simpa using queryGo_sends_le attempt N 0 .genericInit
  · intro esr delay t maxA hd
    obtain ⟨F, hF1, hFgt⟩ := exists_fuel_mul_gt t delay hd
    refine ⟨F, ?_⟩
    apply writeAsyncGo_no_spin esr delay (some t) F ?_ maxA 0 .generic
      (by intro h; cases h)
    intro g hcon
    have := opcPoll_spin_bound esr delay t F 0 g hF1 hcon
    push_cast at this
    linarith
  · intro doneSeq t
    obtain ⟨F, hF1, hFgt⟩ :=
      exists_fuel_mul_gt t ((15 : ℚ) / 1000) (by norm_num)
    refine ⟨F, fun hcon => ?_⟩
    have := KeysightDAQ.wfc_spin_bound doneSeq t F 0 0 hF1 hcon
    push_cast at this
    linarith

/-- Witness for C4 at concrete instruments and bounds. -/
theorem C4_bounded_waits_witness :
    (query true (fun _ => (Except.ok 0 : Except Unit Nat)) 3).2 ≤ 3 ∧
    (∃ fuel,
      (write_async (fun _ => 0) 1 (some 300) 1 fuel).1 ≠ .error .spin) ∧
    (∃ fuel,
      (KeysightDAQ.wait_for_completion (fun _ => "0") 2 0 0 fuel).1 ≠
        .error .spin) :=
  ⟨C4_bounded_waits.1 Nat Unit true (fun _ => .ok 0) 3,
   C4_bounded_waits.2.1 (fun _ => 0) 1 300 1 (by norm_num),
   C4_bounded_waits.2.2 (fun _ => "0") 2⟩

end VisaResource

namespace DummyDAQ

/-- C2: evaluation at the failing input.  On a fresh 3-slot, 20-channel
DummyDAQ, the multi-target membership query ROUT:OPEN? (@101,102) answers
"0,0" even though routes 101 and 102 are both in the OPEN list: the
multi-target branch tests the raw route strings for membership in a list
of ints, which is always false in Python. -/
theorem C2_multi_route_query_eval :
    process_command (initDAQ 3 20) ["ROUT", "OPEN"] ["(@101,102)"] true =
      (.ok (some "0,0"), initDAQ 3 20) ∧
    (101 : Int) ∈ (initDAQ 3 20).openList ∧
    (102 : Int) ∈ (initDAQ 3 20).openList := by
  refine ⟨rfl, by decide, by decide⟩

theorem walk_map_congr (t1 : List String) :
    ∀ (t2 : List String) (v : PyVal) (pcmd : Option String),
      t1.map map_commands = t2.map map_commands →
      walk v pcmd t1 = walk v pcmd t2 := by
  induction t1 with
  | nil =>
    intro t2 v pcmd h
    cases t2 with
    | nil => rfl
    | cons b t2' => simp at h
  | cons a t1' ih =>
    intro t2 v pcmd h
    cases t2 with
    | nil => simp at h
    | cons b t2' =>
      simp only [List.map_cons, List.cons.injEq] at h
      obtain ⟨hab, htail⟩ := h
      simp only [walk, hab]
      cases pyContains v (map_commands b) with
      | error e => rfl
      | ok cond =>
        cases cond with
        | false => rfl
        | true =>
          cases pySubscript v (map_commands b) with
          | error e => rfl
          | ok v2 => exact ih t2' v2 (some (map_commands b)) htail

/-- C6: the dispatcher's behaviour factors through abbreviation
resolution: two raw command paths whose segments resolve to the same
canonical segments produce identical replies and identical resulting
state; and segments absent from the abbreviation table pass through
unchanged. -/
theorem C6_abbreviation_equivalence :
    (∀ (d : DAQ) (t1 t2 params : List String) (is_query : Bool),
        t1.map map_commands = t2.map map_commands →
        process_command d t1 params is_query =
          process_command d t2 params is_query) ∧
    (∀ s, map_commands_table.lookup s = none → map_commands s = s) := by
  constructor
  · intro d t1 t2 params q h
    unfold process_command
    rw [walk_map_congr t1 t2 (stateTree d) none h]
  · intro s h
    simp [map_commands, h]

/-- Witness for C6: ROUT:OPEN (@105) and ROUTE:OPEN (@105) have identical
dispatch results, and the unknown segment "FOO" is passed through. -/
theorem C6_abbreviation_equivalence_witness :
    process_command (initDAQ 3 20) ["ROUT", "OPEN"] ["(@105)"] false =
      process_command (initDAQ 3 20) ["ROUTE", "OPEN"] ["(@105)"] false ∧
    map_commands "FOO" = "FOO" :=
  ⟨C6_abbreviation_equivalence.1 (initDAQ 3 20) ["ROUT", "OPEN"]
      ["ROUTE", "OPEN"] ["(@105)"] false (by decide),
   C6_abbreviation_equivalence.2 "FOO" (by decide)⟩

/-- C7: when the walk classifies the reached node as unresolvable (a
structural dict node, which is what any nonexistent path resolves to), a
query answers the sentinel "-100" without raising, while a write raises
Exception('Unknown command'). -/
theorem C7_unresolvable_asymmetry (d : DAQ) (tree params : List String)
    (es : List (String × PyVal)) (pcmd : Option String)
    (hwalk : walk (stateTree d) none tree = .ok (.dict es, pcmd)) :
    process_command d tree params true = (.ok (some "-100"), d) ∧
    process_command d tree params false = (.error .unknownCommand, d) := by
  unfold process_command
  rw [hwalk]
  exact ⟨rfl, rfl⟩

/-- Witness for C7 at the unknown path FOO. -/
theorem C7_unresolvable_asymmetry_witness :
    process_command (initDAQ 3 20) ["FOO"] [] true =
      (.ok (some "-100"), initDAQ 3 20) ∧
    process_command (initDAQ 3 20) ["FOO"] [] false =
      (.error .unknownCommand, initDAQ 3 20) :=
  C7_unresolvable_asymmetry (initDAQ 3 20) ["FOO"] [] _ none rfl

/-- C8: a route identifier for which the device's slot/channel range check
returns false is silently dropped: set_channel leaves the state exactly
unchanged in both directions and raises nothing; concretely, dispatching
ROUT:CLOS (@999) on a fresh 3-slot, 20-channel device returns normally
with both lists unchanged. -/
theorem C8_invalid_route_ignored :
    (∀ (d : DAQ) (r : Int),
        is_valid_route d.num_slots d.num_channels r = .ok false →
        set_channel d r true = .ok d ∧ set_channel d r false = .ok d) ∧
    process_command (initDAQ 3 20) ["ROUT", "CLOS"] ["(@999)"] false =
      (.ok none, initDAQ 3 20) := by
  constructor
  · intro d r h
    constructor <;> simp [set_channel, h]
  · rfl

/-- Witness for C8 at route 999 on a 3-slot, 20-channel device. -/
theorem C8_invalid_route_ignored_witness :
    set_channel (initDAQ 3 20) 999 true = .ok (initDAQ 3 20) ∧
    set_channel (initDAQ 3 20) 999 false = .ok (initDAQ 3 20) :=
  C8_invalid_route_ignored.1 (initDAQ 3 20) 999 rfl

theorem not_mem_erase_of_count_one (l : List Int) (r : Int)
    (hcount : l.count r = 1) : r ∉ l.erase r := by
  have h0 : (l.erase r).count r = 0 := by
    rw [List.count_erase_self, hcount]
  exact List.count_eq_zero.mp h0

/-- C5: a valid route r that is in OPEN (once) and not in CLOSE is moved by
close(r) exactly once: OPEN loses its occurrence of r, CLOSE gains exactly
one; a second close(r) returns without exception and leaves the state
exactly unchanged; and symmetrically, open(r) on the resulting state moves
r back out of CLOSE into OPEN. -/
theorem C5_route_move_exclusive (d : DAQ) (r : Int)
    (hv : is_valid_route d.num_slots d.num_channels r = .ok true)
    (hmem : r ∈ d.openList) (hcount : d.openList.count r = 1)
    (hnc : r ∉ d.closeList) :
    set_channel d r true =
      .ok { d with openList := d.openList.erase r,
                   closeList := d.closeList ++ [r] } ∧
    r ∉ d.openList.erase r ∧
    (d.closeList ++ [r]).count r = 1 ∧
    set_channel { d with openList := d.openList.erase r,
                         closeList := d.closeList ++ [r] } r true =
      .ok { d with openList := d.openList.erase r,
                   closeList := d.closeList ++ [r] } ∧
    set_channel { d with openList := d.openList.erase r,
                         closeList := d.closeList ++ [r] } r false =
      .ok { d with openList := d.openList.erase r ++ [r],
                   closeList := d.closeList } := by
  have h2 : r ∉ d.openList.erase r := not_mem_erase_of_count_one _ r hcount
  have h3 : (d.closeList ++ [r]).count r = 1 := by
    rw [List.count_append, List.count_eq_zero.mpr hnc]
    simp
  have herase : (d.closeList ++ [r]).erase r = d.closeList := by
    rw [List.erase_append_right _ hnc]
    simp
  refine ⟨?_, h2, h3, ?_, ?_⟩
  · simp [set_channel, hv, hmem]
  · simp [set_channel, hv, h2]
  · simp [set_channel, hv, herase]

/-- Witness for C5 at route 105 on a fresh 3-slot, 20-channel device. -/
theorem C5_route_move_exclusive_witness :
    set_channel (initDAQ 3 20) 105 true =
      .ok { initDAQ 3 20 with
              openList := (initDAQ 3 20).openList.erase 105,
              closeList := (initDAQ 3 20).closeList ++ [105] } ∧
    (105 : Int) ∉ (initDAQ 3 20).openList.erase 105 ∧
    ((initDAQ 3 20).closeList ++ [105]).count 105 = 1 ∧
    set_channel { initDAQ 3 20 with
                    openList := (initDAQ 3 20).openList.erase 105,
                    closeList := (initDAQ 3 20).closeList ++ [105] } 105 true =
      .ok { initDAQ 3 20 with
              openList := (initDAQ 3 20).openList.erase 105,
              closeList := (initDAQ 3 20).closeList ++ [105] } ∧
    set_channel { initDAQ 3 20 with
                    openList := (initDAQ 3 20).openList.erase 105,
                    closeList := (initDAQ 3 20).closeList ++ [105] } 105 false =
      .ok { initDAQ 3 20 with
              openList := (initDAQ 3 20).openList.erase 105 ++ [105],
              closeList := (initDAQ 3 20).closeList } :=
  C5_route_move_exclusive (initDAQ 3 20) 105 rfl (by decide) (by decide)
    (by simp [initDAQ])

theorem pyDecLenAux_of_lt_ten (f n : Nat) (h : n < 10) : pyDecLenAux f n = 1 := by
  cases f with
  | zero => rfl
  | succ f => simp [pyDecLenAux, h]

theorem pyDecLen_le_two (c : Nat) (h : c ≤ 99) : pyDecLen c ≤ 2 := by
  unfold pyDecLen
  rcases Nat.lt_or_ge c 10 with h10 | h10
  · rw [pyDecLenAux_of_lt_ten c c h10]
    omega
  · obtain ⟨f, rfl⟩ : ∃ f, c = f + 1 := ⟨c - 1, by omega⟩
    have hge : ¬ f + 1 < 10 := by omega
    have hdiv : (f + 1) / 10 < 10 := by omega
    simp only [pyDecLenAux, hge, if_false]
    rw [pyDecLenAux_of_lt_ten f _ hdiv]

theorem pyFormatRoute_eq (s c : Nat) (h : c ≤ 99) :
    pyFormatRoute s c = ((s * 100 + c : Nat) : Int) := by
  unfold pyFormatRoute
  rw [Nat.max_eq_left (pyDecLen_le_two c h)]
  norm_num

theorem init_open_nodup (S C : Nat) (hC : C ≤ 99) : (init_open S C).Nodup := by
  unfold init_open
  rw [List.nodup_flatMap]
  constructor
  · intro s _hs
    apply List.Nodup.map_on ?_ (List.nodup_range' 1 C)
    intro c hc c2 hc2 heq
    have hcb := List.mem_range'_1.mp hc
    have hcb2 := List.mem_range'_1.mp hc2
    rw [pyFormatRoute_eq s c (by omega), pyFormatRoute_eq s c2 (by omega)] at heq
    have : s * 100 + c = s * 100 + c2 := by exact_mod_cast heq
    omega
  · have hnd : (List.range' 1 S).Nodup := List.nodup_range' 1 S
    refine List.Pairwise.imp ?_ hnd
    intro a b hab
    intro x hxa hxb
    obtain ⟨c, hc, hcx⟩ := List.mem_map.mp hxa
    obtain ⟨c2, hc2, hcx2⟩ := List.mem_map.mp hxb
    have hcb := List.mem_range'_1.mp hc
    have hcb2 := List.mem_range'_1.mp hc2
    rw [pyFormatRoute_eq a c (by omega)] at hcx
    rw [pyFormatRoute_eq b c2 (by omega)] at hcx2
    have heq : a * 100 + c = b * 100 + c2 := by
      have := hcx.trans hcx2.symm
      exact_mod_cast this
    exact hab (by omega)

theorem moveInv (src dst : List Int) (r : Int)
    (hsrc : src.Nodup) (hdst : dst.Nodup)
    (hdisj : ∀ x, ¬(x ∈ src ∧ x ∈ dst)) (hr : r ∈ src) :
    (src.erase r).Nodup ∧ (dst ++ [r]).Nodup ∧
      (∀ x, ¬(x ∈ src.erase r ∧ x ∈ dst ++ [r])) ∧
      (∀ x, x ∈ src.erase r ∨ x ∈ dst ++ [r] ↔ x ∈ src ∨ x ∈ dst) := by
  have hrd : r ∉ dst := fun h => hdisj r ⟨hr, h⟩
  refine ⟨hsrc.erase r, ?_, ?_, ?_⟩
  · rw [List.nodup_append]
    refine ⟨hdst, by simp, ?_⟩
    intro x hx hx2
    rw [List.mem_singleton] at hx2
    exact hrd (hx2 ▸ hx)
  · rintro x ⟨hx1, hx2⟩
    rw [hsrc.mem_erase_iff] at hx1
    rcases List.mem_append.mp hx2 with h | h
    · exact hdisj x ⟨hx1.2, h⟩
    · exact hx1.1 (List.mem_singleton.mp h)
  · intro x
    constructor
    · rintro (hx | hx)
      · exact Or.inl (hsrc.mem_erase_iff.mp hx).2
      · rcases List.mem_append.mp hx with h | h
        · exact Or.inr h
        · exact Or.inl (List.mem_singleton.mp h ▸ hr)
    · rintro (hx | hx)
      · by_cases hxr : x = r
        · exact Or.inr (List.mem_append.mpr (Or.inr (by simp [hxr])))
        · exact Or.inl (hsrc.mem_erase_iff.mpr ⟨hxr, hx⟩)
      · exact Or.inr (List.mem_append.mpr (Or.inl hx))

theorem set_channel_inv (initL : List Int) (d : DAQ) (r : Int)
    (closed : Bool) (d2 : DAQ) (hinv : routeInv initL d)
    (h : set_channel d r closed = .ok d2) : routeInv initL d2 := by
  obtain ⟨hno, hnc, hdisj, huni⟩ := hinv
  unfold set_channel at h
  cases hval : is_valid_route d.num_slots d.num_channels r with
  | error e => rw [hval] at h; cases h
  | ok valid =>
    rw [hval] at h
    cases valid with
    | false =>
      simp only [Bool.not_false, if_pos, reduceIte, Except.ok.injEq] at h
      exact h ▸ ⟨hno, hnc, hdisj, huni⟩
    | true =>
      simp only [Bool.not_true, Bool.false_eq_true, if_false, reduceIte] at h
      cases closed with
      | true =>
        by_cases hm : r ∈ d.openList
        · rw [if_pos hm] at h
          injection h with h
          obtain ⟨m1, m2, m3, m4⟩ := moveInv d.openList d.closeList r hno hnc hdisj hm
          subst h
          exact ⟨m1, m2, m3, fun x => (m4 x).trans (huni x)⟩
        · rw [if_neg hm] at h
          injection h with h
          exact h ▸ ⟨hno, hnc, hdisj, huni⟩
      | false =>
        by_cases hm : r ∈ d.closeList
        · rw [if_pos hm] at h
          injection h with h
          have hdisj2 : ∀ x, ¬(x ∈ d.closeList ∧ x ∈ d.openList) :=
            fun x hx => hdisj x ⟨hx.2, hx.1⟩
          obtain ⟨m1, m2, m3, m4⟩ := moveInv d.closeList d.openList r hnc hno hdisj2 hm
          subst h
          refine ⟨m2, m1, fun x hx => m3 x ⟨hx.2, hx.1⟩, fun x => ?_⟩
          rw [or_comm, m4 x, or_comm]
          exact huni x
        · rw [if_neg hm] at h
          injection h with h
          exact h ▸ ⟨hno, hnc, hdisj, huni⟩

theorem applyRoutes_inv (initL : List Int) (closed : Bool) :
    ∀ (names : List (List Char)) (d : DAQ), routeInv initL d →
      routeInv initL (applyRoutes d closed names).2 := by
  intro names
  induction names with
  | nil => intro d h; exact h
  | cons r rest ih =>
    intro d h
    cases h1 : pyIntChars r with
    | error e =>
      simp only [applyRoutes, h1]
      exact h
    | ok n =>
      cases hsc : set_channel d n closed with
      | error e =>
        simp only [applyRoutes, h1, hsc]
        exact h
      | ok d2 =>
        simp only [applyRoutes, h1, hsc]
        exact ih d2 (set_channel_inv initL d n closed d2 h hsc)

theorem processWrite_inv (initL : List Int) (d : DAQ) (rst : PyVal)
    (pcmd : Option String) (params : List String) (h : routeInv initL d) :
    routeInv initL (processWrite d rst pcmd params).2 := by
  unfold processWrite
  cases rst with
  | str s => exact h
  | dict es => exact h
  | func hd => exact h
  | list xs =>
    by_cases hp : params.length ≠ 0
    · rw [if_pos hp]
      have hr := applyRoutes_inv initL (pcmd == some "CLOSE")
        (splitOnComma (stripDecor (params.headD ""))) d h
      rcases happ : applyRoutes d (pcmd == some "CLOSE")
          (splitOnComma (stripDecor (params.headD ""))) with ⟨res, d2⟩
      rw [happ] at hr
      cases res with
      | ok v => exact hr
      | error e => exact hr
    · rw [if_neg hp]
      exact h

theorem process_command_inv (initL : List Int) (d : DAQ)
    (tree params : List String) (q : Bool) (h : routeInv initL d) :
    routeInv initL (process_command d tree params q).2 := by
  unfold process_command
  cases hw : walk (stateTree d) none tree with
  | error e => exact h
  | ok rp =>
    rcases rp with ⟨rst, pcmd⟩
    cases q with
    | true => exact h
    | false => exact processWrite_inv initL d rst pcmd params h

/-- C10: starting from the initial DAQ state, whose OPEN list holds every
route formed from a slot digit and a zero-padded two-digit channel (any
number of slots, up to 99 channels so the channel field really is two
digits) and whose CLOSE list is empty, the initial state satisfies the
invariant that OPEN and CLOSE are duplicate-free, disjoint and together
hold exactly the initial route set, and every dispatched command preserves
that invariant. -/
theorem C10_route_list_invariant :
    (∀ S C : Nat, C ≤ 99 → routeInv (init_open S C) (initDAQ S C)) ∧
    (∀ (d : DAQ) (tree params : List String) (q : Bool) (initL : List Int),
        routeInv initL d → routeInv initL (process_command d tree params q).2) := by
  constructor
  · intro S C hC
    exact ⟨init_open_nodup S C hC, by simp [initDAQ], by simp [initDAQ],
      by simp [initDAQ]⟩
  · exact fun d t p q initL h => process_command_inv initL d t p q h

/-- Witness for C10: the invariant holds after dispatching
ROUT:CLOS (@105) on a fresh 3-slot, 20-channel device. -/
theorem C10_route_list_invariant_witness :
    routeInv (init_open 3 20)
      (process_command (initDAQ 3 20) ["ROUT", "CLOS"] ["(@105)"] false).2 :=
  C10_route_list_invariant.2 (initDAQ 3 20) ["ROUT", "CLOS"] ["(@105)"] false
    (init_open 3 20) (C10_route_list_invariant.1 3 20 (by norm_num))

end DummyDAQ

end PyVisa
